import Mathlib

/-!
Verification of the feature-engineering / preprocessing pipeline of the
Vietnam housing price demo application.

The development shallowly embeds, in Lean, the parts of the repository that
the specification's claims are about:

* `backend/app/services/tree_preprocess_service.py` — the online
  single-record preprocessor (`TreePreprocessService.preprocess` and its
  helper encoders, plus the module-level mapping tables);
* `backend/libs/data_preprocess/data_preprocessor.py` — the address
  decomposer (`extract_from_address` / `_parse_location`) and the fill
  helpers used by the batch pipeline;
* `backend/libs/data_preprocess/tree_optimized_preprocessing.py` — the
  missing-value-resolution phases of `basic_preprocessing` and the
  outlier-filter / label-encoding phases of `split_and_encode`;
* `backend/libs/data_preprocess/enhanced_preprocessing.py` — the row-local
  part of `create_interaction_features`.

Numbers are modelled as `ℚ` (the Python code only performs ring operations,
division, comparisons and truncation on them), missing values as `Option`,
pandas frames as lists of per-column `Option` values, and Python `dict`
inputs as association lists from keys to a `Value` type covering the
argument shapes the code distinguishes (`None`, strings, numbers).
-/

namespace Housing

/-! ## Small Python-behaviour helpers -/

/-- Insertion of an element into a (≤)-sorted list; used by `sortQ`. -/
def insertQ (x : ℚ) : List ℚ → List ℚ
  | [] => [x]
  | y :: ys => if x ≤ y then x :: y :: ys else y :: insertQ x ys

/-- Insertion sort on rationals (structurally recursive so that concrete
evaluations reduce inside the kernel). -/
def sortQ : List ℚ → List ℚ
  | [] => []
  | x :: xs => insertQ x (sortQ xs)

/-- The non-missing entries of a column, in row order (pandas `dropna`). -/
def dropna {α : Type} (l : List (Option α)) : List α :=
  l.filterMap id

/-- pandas `Series.median` on the non-missing values: the middle element of
the sorted list for odd length, the mean of the two middle elements for even
length, and `none` for an empty list (pandas returns NaN there, and a
`fillna(NaN)` leaves the column unchanged). -/
def median? (l : List ℚ) : Option ℚ :=
  let s := sortQ l
  let n := s.length
  if n = 0 then none
  else if n % 2 = 1 then some (s.getD (n / 2) 0)
  else some ((s.getD (n / 2 - 1) 0 + s.getD (n / 2) 0) / 2)

/-- pandas `Series.mode()[0]` on the non-missing values: the smallest value
among those of maximal multiplicity (`mode()` sorts its result), `none` for
an empty list. -/
def mode? {α : Type} [DecidableEq α] [LinearOrder α] (l : List α) : Option α :=
  l.foldl
    (fun acc v =>
      match acc with
      | none => some v
      | some b =>
          if l.count v > l.count b ∨ (l.count v = l.count b ∧ v < b) then some v
          else some b)
    none

/-- pandas `Series.quantile(q)` with the default linear interpolation: with
`s` the sorted values and `h = q·(n−1)`, the result is
`s⌊h⌋ + (h−⌊h⌋)·(s⌊h⌋₊₁ − s⌊h⌋)`.  (The empty case, where pandas returns
NaN, is mapped to `0`; theorems that depend on the bounds assume a nonempty
training target.) -/
def quantileQ (l : List ℚ) (q : ℚ) : ℚ :=
  let s := sortQ l
  let n := s.length
  if n = 0 then 0
  else
    let h : ℚ := q * (n - 1)
    let lo := (Int.toNat ⌊h⌋)
    let base := s.getD lo 0
    base + (h - ⌊h⌋) * (s.getD (lo + 1) base - base)

/-- Python `int()` truncation (toward zero) of a rational. -/
def pyInt (q : ℚ) : ℤ :=
  q.num / (q.den : ℤ)

/-- Lowercasing of one character (ASCII range; the claims below only
exercise lowercasing of ASCII characters, non-ASCII characters pass through
unchanged, mirroring what Python's `str.lower` does on them). -/
def charLower (c : Char) : Char :=
  if 'A' ≤ c ∧ c ≤ 'Z' then Char.ofNat (c.toNat + 32) else c

/-- Python `str.lower` (see `charLower`). -/
def pyLower (s : String) : String :=
  String.mk (s.toList.map charLower)

/-- Python `str.strip()` with no argument: remove leading and trailing
whitespace. -/
def stripWs (s : String) : String :=
  String.mk (((s.toList.dropWhile Char.isWhitespace).reverse.dropWhile
    Char.isWhitespace).reverse)

/-- `x.lower().strip()` as used by the service's normalisers. -/
def lowerStrip (s : String) : String :=
  stripWs (pyLower s)

/-- Python `str.rstrip('.')`: drop every trailing `'.'`. -/
def rstripDot (s : String) : String :=
  String.mk ((s.toList.reverse.dropWhile (fun c => c = '.')).reverse)

/-- Numeric value of a list of decimal digit characters. -/
def digitsToNat (cs : List Char) : ℕ :=
  cs.foldl (fun a c => a * 10 + (c.toNat - 48)) 0

/-- Python `float(s)` on a string, modelled for plain decimal literals:
surrounding whitespace is ignored, then an optional sign followed by
`digits`, `digits.digits`, `digits.` or `.digits`.  Strings outside this
shape (the malformed inputs the claims are about) yield `none`, as
`float` raises `ValueError` there. -/
def pyFloat? (s : String) : Option ℚ :=
  let t := (stripWs s).toList
  let signRest : ℚ × List Char :=
    match t with
    | '+' :: r => (1, r)
    | '-' :: r => (-1, r)
    | r => (1, r)
  let sign := signRest.1
  let rest := signRest.2
  let intPart := rest.takeWhile Char.isDigit
  let rest2 := rest.dropWhile Char.isDigit
  match rest2 with
  | [] =>
      if intPart.isEmpty then none
      else some (sign * (digitsToNat intPart : ℚ))
  | '.' :: frac =>
      if frac.all Char.isDigit ∧ ¬(intPart.isEmpty ∧ frac.isEmpty) then
        some (sign * ((digitsToNat intPart : ℚ) +
          (digitsToNat frac : ℚ) / (10 ^ frac.length)))
      else none
  | _ => none

/-- Worker for `splitOnComma`: `acc` holds the current segment reversed. -/
def splitOnCommaAux : List Char → List Char → List (List Char)
  | [], acc => [acc.reverse]
  | c :: rest, acc =>
      if c = ',' then acc.reverse :: splitOnCommaAux rest []
      else splitOnCommaAux rest (c :: acc)

/-- Python `s.split(',')`: the comma-separated segments of `s` (the empty
string yields `[""]`, like Python). -/
def splitOnComma (s : String) : List String :=
  (splitOnCommaAux s.toList []).map String.mk

/-- Python `', '.join(xs)`. -/
def joinCommaSpace (xs : List String) : String :=
  String.intercalate ", " xs

/-! ## Address decomposer
(`libs/data_preprocess/data_preprocessor.py`, `extract_from_address`) -/

namespace DataPreprocessor

/-- `[p.strip() for p in addr.split(',')]` — the stripped comma segments of
an address. -/
def strippedParts (addr : String) : List String :=
  (splitOnComma addr).map stripWs

/-- `_parse_location` inside `DataPreprocessor.extract_from_address`: the
input cell is `none` for a non-string (NaN) entry, `some addr` for a string.
Splits on commas, strips whitespace from each segment, then cases on the
number of segments; the result is `(city, district, street_ward)`. -/
def parseLocation : Option String → String × String × String
  | Option.none => ("Unknown", "Unknown", "Unknown")
  | some addr =>
      if addr = "" then ("Unknown", "Unknown", "Unknown")
      else
        let parts := strippedParts addr
        if parts.length ≥ 3 then
          (rstripDot (parts.getLastD ""),
           parts.getD (parts.length - 2) "",
           joinCommaSpace (parts.take (parts.length - 2)))
        else if parts.length = 2 then
          (rstripDot (parts.getLastD ""), parts.getD 0 "", "Unknown")
        else if parts.length = 1 then
          (rstripDot (parts.getD 0 ""), "Unknown", "Unknown")
        else ("Unknown", "Unknown", "Unknown")

end DataPreprocessor

/-! ## Batch interaction features
(`libs/data_preprocess/enhanced_preprocessing.py`,
`create_interaction_features`) -/

/-- One row of the enhanced frame at the point `create_interaction_features`
is applied: the columns the function reads (all already filled by
`basic_preprocessing`). -/
structure EnhRow where
  area : ℚ
  bathrooms : ℚ
  bedrooms : ℚ
  floors : ℚ
  frontage : ℚ
  accessRoad : ℚ
  newCity : String
  newTotalRooms : ℚ
deriving DecidableEq, Repr

/-- The columns `create_interaction_features` adds.  Every formula in the
function is row-local (a pure function of the row's own values), so the
frame-level map is the row-wise application of this record. -/
structure InteractionRow where
  area_x_bathrooms : ℚ
  area_x_bedrooms : ℚ
  area_x_floors : ℚ
  bedrooms_x_bathrooms : ℚ
  bedrooms_x_floors : ℚ
  luxury_score : ℚ
  area_in_ho_chi_minh : ℚ
  area_in_ha_noi : ℚ
  area_in_binh_duong : ℚ
  area_in_da_nang : ℚ
  room_density : ℚ
  access_quality : ℚ
deriving DecidableEq, Repr

/-- `create_interaction_features`, per row (all referenced columns exist in
the tree-optimized pipeline's frame, so every branch of the Python function
fires).  `luxury_score` is the sum of the four indicator columns and
`access_quality` is `(Access Road > 0) + (Frontage > 0)`; `room_density`
divides by `Area` with `0` replaced by `1` (`replace(0, 1)`). -/
def createInteractionRow (r : EnhRow) : InteractionRow where
  area_x_bathrooms := r.area * r.bathrooms
  area_x_bedrooms := r.area * r.bedrooms
  area_x_floors := r.area * r.floors
  bedrooms_x_bathrooms := r.bedrooms * r.bathrooms
  bedrooms_x_floors := r.bedrooms * r.floors
  luxury_score :=
    (if r.bathrooms ≥ 4 then 1 else 0) + (if r.bedrooms ≥ 5 then 1 else 0) +
    (if r.floors ≥ 4 then 1 else 0) + (if r.area > 140 then 1 else 0)
  area_in_ho_chi_minh := r.area * (if r.newCity = "Hồ Chí Minh" then 1 else 0)
  area_in_ha_noi := r.area * (if r.newCity = "Hà Nội" then 1 else 0)
  area_in_binh_duong := r.area * (if r.newCity = "Bình Dương" then 1 else 0)
  area_in_da_nang := r.area * (if r.newCity = "Đà Nẵng" then 1 else 0)
  room_density := r.newTotalRooms / (if r.area = 0 then 1 else r.area)
  access_quality :=
    (if r.accessRoad > 0 then 1 else 0) + (if r.frontage > 0 then 1 else 0)

/-! ## Split-and-encode orchestrator
(`libs/data_preprocess/tree_optimized_preprocessing.py`,
`split_and_encode`) -/

namespace SplitAndEncode

/-- Keep the entries of `l` whose mask bit is `true` (pandas boolean-mask
row selection `l[mask]`; a mask shorter than the list selects nothing past
its end). -/
def applyMask {α : Type} (l : List α) (mask : List Bool) : List α :=
  (l.zip mask).filterMap (fun p => if p.2 then some p.1 else Option.none)

/-- The outlier-removal phase of `split_and_encode` (Phase 1.5, `iqr`
method with the default multiplier 1.5): IQR bounds are computed from the
training target `yTrain` alone, the boolean mask is applied to the training
partition, and the test partition is returned as it came in.  `α` is the
type of a feature row — the phase never inspects it. -/
def outlierPhase {α : Type} (XTrain : List α) (yTrain : List ℚ)
    (XTest : List α) (yTest : List ℚ) :
    List α × List ℚ × List α × List ℚ :=
  let Q1 := quantileQ yTrain (1/4)
  let Q3 := quantileQ yTrain (3/4)
  let IQR := Q3 - Q1
  let lower := Q1 - (3/2) * IQR
  let upper := Q3 + (3/2) * IQR
  let mask := yTrain.map (fun y => decide (lower ≤ y) && decide (y ≤ upper))
  (applyMask XTrain mask, applyMask yTrain mask, XTest, yTest)

/-- `LabelEncoder.fit` on the stringified training column: `classes_` is
the sorted list of distinct values. -/
def fitClasses (vals : List String) : List String :=
  (vals.dedup.mergeSort (fun a b => a ≤ b))

/-- The per-value test-set transform of `split_and_encode`'s Phase 3: a
value among the fitted classes maps to its `LabelEncoder` code (its index
in the sorted `classes_`), anything else to `-1`. -/
def encodeTestValue (classes : List String) (v : String) : ℤ :=
  if v ∈ classes then (classes.indexOf v : ℤ) else -1

/-- The whole test-column transform loop of Phase 3. -/
def encodeTestColumn (classes : List String) (vals : List String) : List ℤ :=
  vals.map (encodeTestValue classes)

end SplitAndEncode

/-! ## Missing-value resolution
(`libs/data_preprocess/tree_optimized_preprocessing.py`,
`basic_preprocessing`, Phases 1–3, over the raw dataset schema) -/

namespace BasicPreprocessing

/-- `DataPreprocessor.fill_value`: every missing cell becomes `v`. -/
def fillValue {α : Type} (l : List (Option α)) (v : α) : List (Option α) :=
  l.map (fun o => some (o.getD v))

/-- `DataPreprocessor.add_binary_flag`: `notna().astype(int)`. -/
def binaryFlag {α : Type} (l : List (Option α)) : List ℚ :=
  l.map (fun o => if o.isSome then 1 else 0)

/-- `DataPreprocessor.fill_median` without `group_by`: fill with the median
of the non-missing values; when the column is entirely missing the median
is NaN and `fillna` leaves the column unchanged.  (The Python method
returns early when there is nothing missing; the result is the same.) -/
def fillMedian (l : List (Option ℚ)) : List (Option ℚ) :=
  match median? (dropna l) with
  | some m => fillValue l m
  | Option.none => l

/-- The numeric-columns sweep at the end of Phase 3: `fill_median` applied
to a column only when it still has missing values (the result coincides
with unconditional `fillMedian`). -/
def fillMedianIfMissing (l : List (Option ℚ)) : List (Option ℚ) :=
  if l.any (fun o => o.isNone) then fillMedian l else l

/-- `DataPreprocessor.fill_median` with `group_by`: pandas
`groupby(group_by)[column].transform(lambda x: x.fillna(x.median() if not
x.dropna().empty else df[column].median()))`.  Present values inside a
group are kept; a missing value gets its group's median, or the whole
column's (pre-transform) median when the group has no non-missing value.
Rows whose group key is itself missing are dropped by `groupby` and come
back as NaN from `transform`, whatever the original cell held. -/
def fillMedianGrouped (keys : List (Option ℚ)) (l : List (Option ℚ)) :
    List (Option ℚ) :=
  if l.any (fun o => o.isNone) then
    let wholeMed? := median? (dropna l)
    (keys.zip l).map (fun p =>
      match p.1 with
      | Option.none => Option.none
      | some k =>
          match p.2 with
          | some v => some v
          | Option.none =>
              let group := (keys.zip l).filterMap
                (fun q => if q.1 = some k then q.2 else Option.none)
              match median? group with
              | some m => some m
              | Option.none => wholeMed?)
  else l

/-- `DataPreprocessor.fill_mode` without `group_by`: fill with
`mode()[0]` when the column has at least one non-missing value, otherwise
leave it unchanged. -/
def fillMode (l : List (Option ℚ)) : List (Option ℚ) :=
  match mode? (dropna l) with
  | some m => fillValue l m
  | Option.none => l

/-- The per-city mode fill used for `Furniture state` and `Legal status` in
`basic_preprocessing`: for each city (the fill masks of distinct cities are
disjoint, so the Python loop over `unique()` values is order-independent),
missing cells of rows in that city get the mode of the column restricted to
the city when that restriction has non-missing values, and stay missing
otherwise. -/
def cityModeFill (cities : List String) (l : List (Option String)) :
    List (Option String) :=
  (cities.zip l).map (fun p =>
    match p.2 with
    | some v => some v
    | Option.none =>
        mode? ((cities.zip l).filterMap
          (fun q => if q.1 = p.1 then q.2 else Option.none)))

/-- The two-step fill used for `Furniture state` in Phase 2: per-city mode
fill (`cityModeFill`), then — when cells are still missing — a global
`mode()[0]` fill computed on the partially filled column (the Python code
recomputes `df_copy['Furniture state'].mode()` after the city loop); when
even that mode does not exist (`len(global_mode) == 0`) the cells stay
missing. -/
def fillCityModeThenGlobal (cities : List String) (l : List (Option String)) :
    List (Option String) :=
  let f1 := cityModeFill cities l
  if f1.any (fun o => o.isNone) then
    match mode? (dropna f1) with
    | some m => fillValue f1 m
    | Option.none => f1
  else f1

/-- The raw dataset frame (`vietnam_housing_dataset.csv` schema): one
`Option` list per column, rows aligned by position. -/
structure RawFrame where
  area : List (Option ℚ)
  frontage : List (Option ℚ)
  accessRoad : List (Option ℚ)
  floors : List (Option ℚ)
  bedrooms : List (Option ℚ)
  bathrooms : List (Option ℚ)
  price : List (Option ℚ)
  houseDir : List (Option String)
  balconyDir : List (Option String)
  legal : List (Option String)
  furniture : List (Option String)
  address : List (Option String)

/-- The frame after Phases 1–3 of `basic_preprocessing` (missing-value
resolution).  Binary flags are plain numbers (`notna().astype(int)` can
never be missing); extracted location columns are plain strings. -/
structure FilledFrame where
  area : List (Option ℚ)
  frontage : List (Option ℚ)
  accessRoad : List (Option ℚ)
  floors : List (Option ℚ)
  bedrooms : List (Option ℚ)
  bathrooms : List (Option ℚ)
  price : List (Option ℚ)
  houseDir : List (Option String)
  balconyDir : List (Option String)
  legal : List (Option String)
  furniture : List (Option String)
  hasBalconyDir : List ℚ
  hasHouseDir : List ℚ
  hasAccessRoad : List ℚ
  hasFrontage : List ℚ
  newCity : List String
  newDistrict : List String
  newStreetWard : List String

/-- Phases 1–3 of `basic_preprocessing` on the full raw schema (every
`if "X" in df.columns` guard of the Python function passes), statement by
statement:
1. flags + sentinel fills for `Balcony direction` / `House direction`;
2. address extraction, `Furniture state` filled by per-city mode then
   global mode (computed on the partially filled column, as in the source),
   flags + `0`-fills for `Access Road` / `Frontage`;
3. `Bedrooms` median-filled when it has gaps, `Bathrooms` median-filled
   grouped by `Bedrooms`, `Legal status` per-city mode then `"Không rõ"`,
   `Floors` mode-filled, and a final median sweep over the numeric columns
   that still have gaps. -/
def basicPreprocessingFill (f : RawFrame) : FilledFrame :=
  let hasBalconyDir := binaryFlag f.balconyDir
  let balconyDir1 := fillValue f.balconyDir "Unknown"
  let hasHouseDir := binaryFlag f.houseDir
  let houseDir1 := fillValue f.houseDir "Không rõ"
  let parsed := f.address.map DataPreprocessor.parseLocation
  let newCity := parsed.map (fun p => p.1)
  let newDistrict := parsed.map (fun p => p.2.1)
  let newStreetWard := parsed.map (fun p => p.2.2)
  let furn2 := fillCityModeThenGlobal newCity f.furniture
  let hasAccessRoad := binaryFlag f.accessRoad
  let accessRoad1 := fillValue f.accessRoad 0
  let hasFrontage := binaryFlag f.frontage
  let frontage1 := fillValue f.frontage 0
  let bedrooms1 :=
    if f.bedrooms.any (fun o => o.isNone) then fillMedian f.bedrooms
    else f.bedrooms
  let bathrooms1 :=
    if f.bathrooms.any (fun o => o.isNone) then
      fillMedianGrouped bedrooms1 f.bathrooms
    else f.bathrooms
  let legal1 := cityModeFill newCity f.legal
  let legal2 := fillValue legal1 "Không rõ"
  let floors1 :=
    if f.floors.any (fun o => o.isNone) then fillMode f.floors else f.floors
  let area2 := fillMedianIfMissing f.area
  let frontage2 := fillMedianIfMissing frontage1
  let accessRoad2 := fillMedianIfMissing accessRoad1
  let floors2 := fillMedianIfMissing floors1
  let bedrooms2 := fillMedianIfMissing bedrooms1
  let bathrooms2 := fillMedianIfMissing bathrooms1
  let price2 := fillMedianIfMissing f.price
  { area := area2
    frontage := frontage2
    accessRoad := accessRoad2
    floors := floors2
    bedrooms := bedrooms2
    bathrooms := bathrooms2
    price := price2
    houseDir := houseDir1
    balconyDir := balconyDir1
    legal := legal2
    furniture := furn2
    hasBalconyDir := hasBalconyDir
    hasHouseDir := hasHouseDir
    hasAccessRoad := hasAccessRoad
    hasFrontage := hasFrontage
    newCity := newCity
    newDistrict := newDistrict
    newStreetWard := newStreetWard }

/-- A column with no missing values (`sum(isna()) == 0`). -/
def noMissing {α : Type} (l : List (Option α)) : Prop :=
  ∀ o ∈ l, o.isSome = true

instance noMissingDecidable {α : Type} (l : List (Option α)) :
    Decidable (noMissing l) :=
  List.decidableBAll _ l

/-- A one-row raw frame with every cell present, used to instantiate the
no-missing-values theorem. -/
def frameComplete : RawFrame :=
  ⟨[some 50], [some 5], [some 3], [some 2], [some 2], [some 1], [some 100],
   [some "Đông"], [some "Nam"], [some "Sổ đỏ"], [some "Đầy đủ"], [some "a, b, c"]⟩

/-- A one-row raw frame whose `Furniture state` column (and address) is
entirely missing: neither a city-level nor a global mode exists, so the
fill stage leaves the cell missing. -/
def frameMissingFurniture : RawFrame :=
  ⟨[some 50], [some 5], [some 3], [some 2], [some 2], [some 1], [some 100],
   [some "Đông"], [some "Nam"], [some "Sổ đỏ"], [Option.none], [Option.none]⟩

end BasicPreprocessing

/-! ## Online single-record preprocessor
(`app/services/tree_preprocess_service.py`) -/

/-- The shapes of values a raw request dictionary can carry that the service
code distinguishes: Python `None`, strings, and numbers (`int`/`float`,
modelled together as `ℚ`). -/
inductive Value : Type
  | none : Value
  | str : String → Value
  | num : ℚ → Value
deriving DecidableEq, Repr

/-- A raw request dictionary: keys to values, first binding wins on lookup
(dictionaries in the code never bind a key twice). -/
def Input : Type := List (String × Value)

/-- Python `data.get(key, default)`. A key bound to `None` returns `None`,
not the default. -/
def Input.get (d : Input) (key : String) (default : Value) : Value :=
  match List.lookup key d with
  | some v => v
  | Option.none => default

/-- Python truthiness for the `Value` shapes (`if value:`). -/
def truthy : Value → Bool
  | .none => false
  | .str s => s ≠ ""
  | .num q => q ≠ 0

/-- `EXPECTED_FEATURES` — the persisted expected-feature list, in the order
the trained models expect (41 names). -/
def EXPECTED_FEATURES : List String :=
  [ "Area",
    "Frontage",
    "Access Road",
    "House direction",
    "Balcony direction",
    "Floors",
    "Bedrooms",
    "Bathrooms",
    "Legal status",
    "Furniture state",
    "new_has_balcony_direction",
    "new_has_house_direction",
    "new_city",
    "new_district",
    "new_street_ward",
    "new_has_access_road",
    "has_frontage",
    "new_bathroom_bedroom_ratio",
    "new_total_rooms",
    "new_is_large_house",
    "new_avg_room_size",
    "new_is_luxury",
    "new_is_multi_story",
    "Area_binned",
    "area_x_bathrooms",
    "area_x_bedrooms",
    "area_x_floors",
    "bedrooms_x_bathrooms",
    "bedrooms_x_floors",
    "luxury_score",
    "area_in_hồ_chí_minh",
    "area_in_hà_nội",
    "area_in_bình_dương",
    "area_in_đà_nẵng",
    "room_density",
    "access_quality",
    "new_district_area_mean",
    "new_district_area_median",
    "new_district_area_std",
    "new_district_sample_count",
    "new_district_tier" ]

/-- `CITY_MAPPING` — synonym table from lowercased city spellings to the
canonical city names. -/
def CITY_MAPPING : List (String × String) :=
  [ ("hồ chí minh", "Hồ Chí Minh"),
    ("ho chi minh", "Hồ Chí Minh"),
    ("hcm", "Hồ Chí Minh"),
    ("tphcm", "Hồ Chí Minh"),
    ("tp hcm", "Hồ Chí Minh"),
    ("saigon", "Hồ Chí Minh"),
    ("sài gòn", "Hồ Chí Minh"),
    ("hà nội", "Hà Nội"),
    ("ha noi", "Hà Nội"),
    ("hanoi", "Hà Nội"),
    ("bình dương", "Bình Dương"),
    ("binh duong", "Bình Dương"),
    ("đà nẵng", "Đà Nẵng"),
    ("da nang", "Đà Nẵng"),
    ("danang", "Đà Nẵng") ]

/-- `DIRECTION_MAPPING` — fixed house/balcony direction codes. -/
def DIRECTION_MAPPING : List (String × ℤ) :=
  [ ("đông", 0), ("dong", 0), ("east", 0), ("e", 0),
    ("tây", 1), ("tay", 1), ("west", 1), ("w", 1),
    ("nam", 2), ("south", 2), ("s", 2),
    ("bắc", 3), ("bac", 3), ("north", 3), ("n", 3),
    ("đông nam", 4), ("dong nam", 4), ("southeast", 4), ("se", 4),
    ("đông bắc", 5), ("dong bac", 5), ("northeast", 5), ("ne", 5),
    ("tây nam", 6), ("tay nam", 6), ("southwest", 6), ("sw", 6),
    ("tây bắc", 7), ("tay bac", 7), ("northwest", 7), ("nw", 7) ]

/-- `LEGAL_STATUS_MAPPING` — fixed legal-status codes. -/
def LEGAL_STATUS_MAPPING : List (String × ℤ) :=
  [ ("sổ đỏ", 0), ("so do", 0),
    ("sổ hồng", 1), ("so hong", 1),
    ("hợp đồng", 2), ("hop dong", 2),
    ("đang chờ sổ", 3), ("dang cho so", 3),
    ("không rõ", 4), ("khong ro", 4) ]

/-- `FURNITURE_MAPPING` — fixed furniture-state codes. -/
def FURNITURE_MAPPING : List (String × ℤ) :=
  [ ("cao cấp", 0), ("cao cap", 0), ("full", 0),
    ("đầy đủ", 1), ("day du", 1), ("basic", 1),
    ("cơ bản", 2), ("co ban", 2),
    ("không nội thất", 3), ("khong noi that", 3), ("none", 3), ("trống", 3),
    ("không rõ", 4), ("khong ro", 4) ]

/-- One entry of the persisted district location-stats table; each field is
read with `stats.get(key, default)`, hence `Option` with the fixed default
applied at read time. -/
structure LocStats where
  areaMean? : Option ℚ
  areaMedian? : Option ℚ
  areaStd? : Option ℚ
  sampleCount? : Option ℚ
  tier? : Option ℚ
deriving DecidableEq, Repr

/-- The frozen per-call state of `TreePreprocessService`: the loaded label
encoders (`column ↦ le.classes_`, the sorted class list of the fitted
`LabelEncoder`) and the optional district location-stats table.  Both are
read-only after construction; no method writes them. -/
structure TreePreprocessService where
  label_encoders : List (String × List String)
  location_stats : Option (List (String × LocStats))

/-- The single runtime error `preprocess` can raise: `_normalize_city`
calls `.lower()` on its argument, which is an `AttributeError` when the
argument is truthy but not a string (e.g. a nonzero number). -/
inductive PyErr : Type
  | attributeError : PyErr
deriving DecidableEq, Repr

namespace TreePreprocessService

/-- `TreePreprocessService._to_float` with its (never overridden) default
`0.0`: `None` and `''` give the default, numbers pass through, other strings
go through `float()` with `ValueError` mapped to the default. -/
def toFloat : Value → ℚ
  | .none => 0
  | .str s => if s = "" then 0 else (pyFloat? s).getD 0
  | .num q => q

/-- `TreePreprocessService._normalize_city`: falsy input defaults to
`"Hồ Chí Minh"`, strings are looked up (lowercased and stripped) in
`CITY_MAPPING` with the original string as fallback, and a truthy
non-string raises `AttributeError` at `city.lower()`. -/
def normalizeCity : Value → Except PyErr String
  | .none => .ok "Hồ Chí Minh"
  | .str s =>
      if s = "" then .ok "Hồ Chí Minh"
      else .ok ((List.lookup (lowerStrip s) CITY_MAPPING).getD s)
  | .num q => if q = 0 then .ok "Hồ Chí Minh" else .error .attributeError

/-- `TreePreprocessService._encode_direction`: numbers truncate via
`int()`, strings are looked up (lowercased, stripped) in
`DIRECTION_MAPPING` with default `1` ("Tây"), everything else gives `1`. -/
def encodeDirection : Value → ℤ
  | .num q => pyInt q
  | .str s => (List.lookup (lowerStrip s) DIRECTION_MAPPING).getD 1
  | .none => 1

/-- `TreePreprocessService._encode_legal_status`: like `_encode_direction`
but over `LEGAL_STATUS_MAPPING` with default `0` ("Sổ đỏ"). -/
def encodeLegalStatus : Value → ℤ
  | .num q => pyInt q
  | .str s => (List.lookup (lowerStrip s) LEGAL_STATUS_MAPPING).getD 0
  | .none => 0

/-- `TreePreprocessService._encode_furniture`: like `_encode_direction`
but over `FURNITURE_MAPPING` with default `1` ("đầy đủ"). -/
def encodeFurniture : Value → ℤ
  | .num q => pyInt q
  | .str s => (List.lookup (lowerStrip s) FURNITURE_MAPPING).getD 1
  | .none => 1

/-- `value in le.classes_`: membership of an arbitrary value in the string
class list of a fitted encoder — only a string can be a member. -/
def inClasses (classes : List String) : Value → Bool
  | .str s => decide (s ∈ classes)
  | _ => false

/-- The inputs `preprocess` completes on: a city value that is falsy or a
string (a truthy non-string city makes `_normalize_city` raise). -/
def cityValueAcceptable : Value → Bool
  | .num q => decide (q = 0)
  | _ => true

/-- `TreePreprocessService._encode_categorical`.  With a fitted encoder for
the column: a string in `le.classes_` is transformed to its index and any
other value (string outside the classes, number, `None`) yields `-1`.
Without an encoder the code hashes the value (`abs(hash(value)) % 1000`,
`0` for falsy values); since Python string hashing is randomised per
process, the hash is a parameter `pyHash` of the embedding. -/
def encodeCategorical (pyHash : Value → ℤ) (svc : TreePreprocessService)
    (column : String) (value : Value) : ℤ :=
  match List.lookup column svc.label_encoders with
  | some classes =>
      match value with
      | .str s => if s ∈ classes then (classes.indexOf s : ℤ) else -1
      | _ => -1
  | Option.none =>
      if truthy value then ((pyHash value).natAbs : ℤ) % 1000 else 0

/-- The reorder step closing `preprocess` (lines 277–288): build the result
keyed by `EXPECTED_FEATURES` in order, taking the computed value when the
feature is present in `processed` and defaulting to `0` (with a logged
warning in the source) otherwise. -/
def reorderToExpected (processed : List (String × ℚ)) : List (String × ℚ) :=
  EXPECTED_FEATURES.map (fun f => (f, (List.lookup f processed).getD 0))

/-- The raw value `preprocess` reads for the city
(`data.get('City', data.get('new_city', 'Hồ Chí Minh'))`). -/
def cityArg (data : Input) : Value :=
  data.get "City" (data.get "new_city" (.str "Hồ Chí Minh"))

/-- The raw value `preprocess` reads for the district
(`data.get('District', data.get('new_district', ''))`). -/
def districtArg (data : Input) : Value :=
  data.get "District" (data.get "new_district" (.str ""))

/-- The location-stats lookup in `preprocess`
(`self.location_stats is not None and district in self.location_stats`
followed by `self.location_stats[district]`): a hit needs a loaded table
and a district string present among its keys; any non-string district value
misses (the table's keys are strings). -/
def statsLookup (svc : TreePreprocessService) (v : Value) : Option LocStats :=
  match svc.location_stats with
  | Option.none => Option.none
  | some tbl =>
      match v with
      | .str s => List.lookup s tbl
      | _ => Option.none

/-- `district in self.location_stats` (with a `None` table counting as a
miss). -/
def statsContains (svc : TreePreprocessService) (v : Value) : Bool :=
  (statsLookup svc v).isSome

/-- The `processed` mapping built by `TreePreprocessService.preprocess`
(the body of the method between its numeric reads and the final reorder),
given the already-normalised `city`.  Entries appear in the source's
assignment order.  Mirrors the Python statement by statement. -/
def processedMap (pyHash : Value → ℤ) (svc : TreePreprocessService)
    (data : Input) (city : String) : List (String × ℚ) :=
  let area : ℚ := toFloat (data.get "Area" (.num 70))
  let frontage : ℚ := toFloat (data.get "Frontage" (.num 0))
  let accessRoad : ℚ := toFloat (data.get "AccessRoad" (data.get "Access Road" (.num 0)))
  let floorsV : ℚ := toFloat (data.get "Floors" (.num 1))
  let bedroomsV : ℚ := toFloat (data.get "Bedrooms" (.num 2))
  let bathroomsV : ℚ := toFloat (data.get "Bathrooms" (.num 2))
  let direction := data.get "Direction" (data.get "House direction" (.str ""))
  let houseDirCode := encodeDirection direction
  let balconyDir := data.get "BalconyDirection" (data.get "Balcony direction" (.str ""))
  let balconyDirCode := encodeDirection balconyDir
  let legal := data.get "LegalStatus" (data.get "Legal status" (.str ""))
  let legalCode := encodeLegalStatus legal
  let furniture := data.get "Furniture" (data.get "Furniture state" (.str ""))
  let furnitureCode := encodeFurniture furniture
  let hasBalconyDir : ℚ := if truthy balconyDir then 1 else 0
  let hasHouseDir : ℚ := if truthy direction then 1 else 0
  let hasAccessRoad : ℚ := if accessRoad > 0 then 1 else 0
  let hasFrontage : ℚ := if frontage > 0 then 1 else 0
  let district := districtArg data
  let ward := data.get "Ward" (data.get "new_street_ward" (.str ""))
  let cityCode := encodeCategorical pyHash svc "new_city" (.str city)
  let districtCode := encodeCategorical pyHash svc "new_district" district
  let wardCode := encodeCategorical pyHash svc "new_street_ward" ward
  let bedrooms : ℚ := max bedroomsV 1
  let bathrooms : ℚ := bathroomsV
  let floors : ℚ := floorsV
  let ratio : ℚ := bathrooms / bedrooms
  let totalRooms : ℚ := bedrooms + bathrooms
  let isLargeHouse : ℚ := if area > 140 then 1 else 0
  let avgRoomSize : ℚ := area / max totalRooms 1
  let isLuxury : ℚ := if bathrooms ≥ 4 then 1 else 0
  let isMultiStory : ℚ := if floors > 2 then 1 else 0
  let areaBinned : ℚ :=
    if area < 30 then 0
    else if area < 60 then 1
    else if area < 100 then 2
    else if area < 150 then 3
    else 4
  let luxuryScore : ℚ :=
    (if bathrooms ≥ 3 then 1 else 0) +
    (if area > 100 then 1 else 0) +
    (if furnitureCode = 0 ∨ furnitureCode = 1 then 1 else 0)
  let roomDensity : ℚ := totalRooms / max area 1
  let accessQuality : ℚ :=
    if accessRoad = 0 then 0 else if accessRoad < 5 then 1 else 2
  let statsHit : Option LocStats := statsLookup svc district
  let distStats : ℚ × ℚ × ℚ × ℚ × ℚ :=
    match statsHit with
    | some st =>
        (st.areaMean?.getD 70, st.areaMedian?.getD 65, st.areaStd?.getD 30,
         st.sampleCount?.getD 100, st.tier?.getD 2)
    | Option.none => (70, 65, 30, 100, 2)
  let processed : List (String × ℚ) :=
    [ ("Area", area),
      ("Frontage", frontage),
      ("Access Road", accessRoad),
      ("Floors", floorsV),
      ("Bedrooms", bedroomsV),
      ("Bathrooms", bathroomsV),
      ("House direction", (houseDirCode : ℚ)),
      ("Balcony direction", (balconyDirCode : ℚ)),
      ("Legal status", (legalCode : ℚ)),
      ("Furniture state", (furnitureCode : ℚ)),
      ("new_has_balcony_direction", hasBalconyDir),
      ("new_has_house_direction", hasHouseDir),
      ("new_has_access_road", hasAccessRoad),
      ("has_frontage", hasFrontage),
      ("new_city", (cityCode : ℚ)),
      ("new_district", (districtCode : ℚ)),
      ("new_street_ward", (wardCode : ℚ)),
      ("new_bathroom_bedroom_ratio", ratio),
      ("new_total_rooms", totalRooms),
      ("new_is_large_house", isLargeHouse),
      ("new_avg_room_size", avgRoomSize),
      ("new_is_luxury", isLuxury),
      ("new_is_multi_story", isMultiStory),
      ("Area_binned", areaBinned),
      ("area_x_bathrooms", area * bathrooms),
      ("area_x_bedrooms", area * bedrooms),
      ("area_x_floors", area * floors),
      ("bedrooms_x_bathrooms", bedrooms * bathrooms),
      ("bedrooms_x_floors", bedrooms * floors),
      ("luxury_score", luxuryScore),
      ("area_in_hồ_chí_minh", if city = "Hồ Chí Minh" then area else 0),
      ("area_in_hà_nội", if city = "Hà Nội" then area else 0),
      ("area_in_bình_dương", if city = "Bình Dương" then area else 0),
      ("area_in_đà_nẵng", if city = "Đà Nẵng" then area else 0),
      ("room_density", roomDensity),
      ("access_quality", accessQuality),
      ("new_district_area_mean", distStats.1),
      ("new_district_area_median", distStats.2.1),
      ("new_district_area_std", distStats.2.2.1),
      ("new_district_sample_count", distStats.2.2.2.1),
      ("new_district_tier", distStats.2.2.2.2) ]
  processed

/-- `TreePreprocessService.preprocess` — the online single-record
preprocessor.  The only fallible step is `_normalize_city` (everything else
in the method is a pure total computation, collected in `processedMap`);
on success the computed mapping is reordered over `EXPECTED_FEATURES`. -/
def preprocess (pyHash : Value → ℤ) (svc : TreePreprocessService)
    (data : Input) : Except PyErr (List (String × ℚ)) :=
  match normalizeCity (cityArg data) with
  | .error e => .error e
  | .ok city => .ok (reorderToExpected (processedMap pyHash svc data city))

end TreePreprocessService

/-- A service with no loaded artifacts (both `joblib.load`s skipped or
failed): encoders fall back to hashing, location stats to defaults. -/
def svcNone : TreePreprocessService :=
  ⟨[], Option.none⟩

/-- A service with an empty encoder table and a one-district location-stats
table, used to instantiate closed statements about unknown districts. -/
def svcQuan1 : TreePreprocessService :=
  ⟨[], some [("Quận 1", ⟨some 50, some 45, some 20, some 200, some 3⟩)]⟩

/-- A concrete stand-in for Python's per-process string hash, used to
instantiate the `pyHash` parameter in closed statements. -/
def hashZero : Value → ℤ :=
  fun _ => 0

/-! ## General lemmas -/

open TreePreprocessService

theorem lookup_keyed_map (names : List String) (proc : List (String × ℚ))
    (f : String) :
    List.lookup f (names.map (fun g => (g, (List.lookup g proc).getD 0))) =
      if f ∈ names then some ((List.lookup f proc).getD 0) else Option.none := by
  induction names with
  | nil => simp
  | cons g gs ih =>
      by_cases h : f = g
      · subst h; simp [List.lookup]
      · have hbeq : (f == g) = false := by
          simp [h]
        simp [List.lookup, hbeq, ih, List.mem_cons, h]

theorem lookup_reorder (proc : List (String × ℚ)) (f : String)
    (hf : f ∈ EXPECTED_FEATURES) :
    List.lookup f (reorderToExpected proc) =
      some ((List.lookup f proc).getD 0) := by
  rw [reorderToExpected, lookup_keyed_map, if_pos hf]

theorem reorder_map_fst (proc : List (String × ℚ)) :
    (reorderToExpected proc).map Prod.fst = EXPECTED_FEATURES := by
  simp [reorderToExpected, List.map_map]
  exact List.map_id EXPECTED_FEATURES

theorem reorder_length (proc : List (String × ℚ)) :
    (reorderToExpected proc).length = EXPECTED_FEATURES.length := by
  simp [reorderToExpected]

theorem preprocess_ok_elim (pyHash : Value → ℤ) (svc : TreePreprocessService)
    (data : Input) (out : List (String × ℚ))
    (h : preprocess pyHash svc data = .ok out) :
    ∃ city, normalizeCity (cityArg data) = .ok city ∧
      out = reorderToExpected (processedMap pyHash svc data city) := by
  unfold preprocess at h
  cases hc : normalizeCity (cityArg data) with
  | error e => rw [hc] at h; cases h
  | ok city => rw [hc] at h; cases h; exact ⟨city, rfl, rfl⟩

theorem input_get_of_absent (d : Input) (k : String) (v : Value)
    (h : List.lookup k d = Option.none) : d.get k v = v := by
  simp [Input.get, h]

theorem lookup_processed_area (pyHash : Value → ℤ) (svc : TreePreprocessService)
    (data : Input) (city : String) :
    List.lookup "Area" (processedMap pyHash svc data city) =
      some (toFloat (data.get "Area" (.num 70))) := rfl

theorem lookup_processed_frontage (pyHash : Value → ℤ) (svc : TreePreprocessService)
    (data : Input) (city : String) :
    List.lookup "Frontage" (processedMap pyHash svc data city) =
      some (toFloat (data.get "Frontage" (.num 0))) := rfl

theorem lookup_processed_accessRoad (pyHash : Value → ℤ) (svc : TreePreprocessService)
    (data : Input) (city : String) :
    List.lookup "Access Road" (processedMap pyHash svc data city) =
      some (toFloat (data.get "AccessRoad" (data.get "Access Road" (.num 0)))) := rfl

theorem lookup_processed_floors (pyHash : Value → ℤ) (svc : TreePreprocessService)
    (data : Input) (city : String) :
    List.lookup "Floors" (processedMap pyHash svc data city) =
      some (toFloat (data.get "Floors" (.num 1))) := rfl

theorem lookup_processed_bedrooms (pyHash : Value → ℤ) (svc : TreePreprocessService)
    (data : Input) (city : String) :
    List.lookup "Bedrooms" (processedMap pyHash svc data city) =
      some (toFloat (data.get "Bedrooms" (.num 2))) := rfl

theorem lookup_processed_bathrooms (pyHash : Value → ℤ) (svc : TreePreprocessService)
    (data : Input) (city : String) :
    List.lookup "Bathrooms" (processedMap pyHash svc data city) =
      some (toFloat (data.get "Bathrooms" (.num 2))) := rfl

theorem lookup_processed_luxury (pyHash : Value → ℤ) (svc : TreePreprocessService)
    (data : Input) (city : String) :
    List.lookup "luxury_score" (processedMap pyHash svc data city) =
      some ((if toFloat (data.get "Bathrooms" (.num 2)) ≥ 3 then (1:ℚ) else 0) +
        (if toFloat (data.get "Area" (.num 70)) > 100 then 1 else 0) +
        (if encodeFurniture (data.get "Furniture" (data.get "Furniture state" (.str ""))) = 0 ∨
            encodeFurniture (data.get "Furniture" (data.get "Furniture state" (.str ""))) = 1
          then 1 else 0)) := rfl

theorem lookup_processed_accessQuality (pyHash : Value → ℤ)
    (svc : TreePreprocessService) (data : Input) (city : String) :
    List.lookup "access_quality" (processedMap pyHash svc data city) =
      some (if toFloat (data.get "AccessRoad" (data.get "Access Road" (.num 0))) = 0 then 0
        else if toFloat (data.get "AccessRoad" (data.get "Access Road" (.num 0))) < 5 then 1
        else 2) := rfl

theorem lookup_processed_stats_defaults (pyHash : Value → ℤ)
    (svc : TreePreprocessService) (data : Input) (city : String)
    (hmiss : statsLookup svc (districtArg data) = Option.none) :
    List.lookup "new_district_area_mean" (processedMap pyHash svc data city) = some 70 ∧
    List.lookup "new_district_area_median" (processedMap pyHash svc data city) = some 65 ∧
    List.lookup "new_district_area_std" (processedMap pyHash svc data city) = some 30 ∧
    List.lookup "new_district_sample_count" (processedMap pyHash svc data city) = some 100 ∧
    List.lookup "new_district_tier" (processedMap pyHash svc data city) = some 2 := by
  refine ⟨?_, ?_, ?_, ?_, ?_⟩ <;>
    · simp only [processedMap, hmiss]
      rfl

theorem applyMask_map_self (ys : List ℚ) (p : ℚ → Bool) :
    SplitAndEncode.applyMask ys (ys.map p) = ys.filter p := by
  induction ys with
  | nil => rfl
  | cons y ys ih =>
      cases hp : p y <;>
        simp [SplitAndEncode.applyMask, List.filter, hp] at ih ⊢ <;> exact ih

theorem applyMask_map_zip {α : Type} (xs : List α) (ys : List ℚ) (p : ℚ → Bool) :
    SplitAndEncode.applyMask xs (ys.map p) =
      (xs.zip ys).filterMap (fun q => if p q.2 then some q.1 else Option.none) := by
  induction xs generalizing ys with
  | nil => simp [SplitAndEncode.applyMask]
  | cons x xs ih =>
      cases ys with
      | nil => simp [SplitAndEncode.applyMask]
      | cons y ys =>
          cases hp : p y <;>
            simp [SplitAndEncode.applyMask, List.filterMap, hp] at ih ⊢ <;> exact ih ys

theorem insertQ_length (x : ℚ) (l : List ℚ) :
    (insertQ x l).length = l.length + 1 := by
  induction l with
  | nil => rfl
  | cons y ys ih =>
      by_cases h : x ≤ y <;> simp [insertQ, h, ih]

theorem sortQ_length (l : List ℚ) : (sortQ l).length = l.length := by
  induction l with
  | nil => rfl
  | cons x xs ih => simp [sortQ, insertQ_length, ih]

theorem median?_isSome (l : List ℚ) (h : l ≠ []) : ∃ m, median? l = some m := by
  have hn : (sortQ l).length ≠ 0 := by
    rw [sortQ_length]
    exact fun h0 => h (List.length_eq_zero.mp h0)
  by_cases hodd : (sortQ l).length % 2 = 1 <;> simp [median?, hn, hodd]

theorem mode?_foldl_some {α : Type} [DecidableEq α] [LinearOrder α]
    (count : α → ℕ) (xs : List α) (b : α) :
    ∃ m, (xs.foldl
      (fun acc v =>
        match acc with
        | Option.none => some v
        | some c =>
            if count v > count c ∨ (count v = count c ∧ v < c) then some v
            else some c)
      (some b)) = some m := by
  induction xs generalizing b with
  | nil => exact ⟨b, rfl⟩
  | cons y ys ih =>
      by_cases h : count y > count b ∨ (count y = count b ∧ y < b) <;>
        simp only [List.foldl, h, if_pos, if_neg, ite_true, ite_false] <;>
        first
          | exact ih y
          | exact ih b

theorem mode?_isSome {α : Type} [DecidableEq α] [LinearOrder α]
    (l : List α) (h : l ≠ []) : ∃ m, mode? l = some m := by
  cases l with
  | nil => exact absurd rfl h
  | cons x xs =>
      unfold mode?
      exact mode?_foldl_some _ xs x

namespace BasicPreprocessing

theorem mem_dropna {α : Type} {a : α} {l : List (Option α)} :
    a ∈ dropna l ↔ some a ∈ l := by
  simp [dropna, List.mem_filterMap]

theorem dropna_ne_nil {α : Type} {l : List (Option α)} :
    dropna l ≠ [] ↔ ∃ a, some a ∈ l := by
  constructor
  · intro h
    rcases List.exists_mem_of_ne_nil _ h with ⟨a, ha⟩
    exact ⟨a, mem_dropna.mp ha⟩
  · rintro ⟨a, ha⟩ h0
    have hm := mem_dropna.mpr ha
    rw [h0] at hm
    simp at hm

theorem noMissing_fillValue {α : Type} (l : List (Option α)) (v : α) :
    noMissing (fillValue l v) := by
  intro o ho
  rw [fillValue, List.mem_map] at ho
  obtain ⟨x, hx, rfl⟩ := ho
  rfl

theorem noMissing_of_any_false {α : Type} {l : List (Option α)}
    (h : l.any (fun o => o.isNone) = false) : noMissing l := by
  intro o ho
  have := List.any_eq_false.mp h o ho
  cases o with
  | none => exact absurd rfl this
  | some a => rfl

theorem any_false_of_noMissing {α : Type} {l : List (Option α)}
    (h : noMissing l) : l.any (fun o => o.isNone) = false := by
  rw [List.any_eq_false]
  intro o ho
  have := h o ho
  cases o with
  | none => cases this
  | some a => simp

theorem noMissing_fillMedian {l : List (Option ℚ)} (h : dropna l ≠ []) :
    noMissing (fillMedian l) := by
  obtain ⟨m, hm⟩ := median?_isSome (dropna l) h
  rw [fillMedian, hm]
  exact noMissing_fillValue l m

theorem noMissing_fillMedianIfMissing {l : List (Option ℚ)}
    (h : l.any (fun o => o.isNone) = true → dropna l ≠ []) :
    noMissing (fillMedianIfMissing l) := by
  rw [fillMedianIfMissing]
  cases hany : l.any (fun o => o.isNone) with
  | false => simpa using noMissing_of_any_false hany
  | true => simpa using noMissing_fillMedian (h hany)

theorem noMissing_fillMedianIfMissing_of_noMissing {l : List (Option ℚ)}
    (h : noMissing l) : noMissing (fillMedianIfMissing l) := by
  rw [fillMedianIfMissing, any_false_of_noMissing h]
  simpa using h

theorem noMissing_fillMode {l : List (Option ℚ)} (h : dropna l ≠ []) :
    noMissing (fillMode l) := by
  obtain ⟨m, hm⟩ := mode?_isSome (dropna l) h
  rw [fillMode, hm]
  exact noMissing_fillValue l m

theorem noMissing_fillMedianGrouped {keys l : List (Option ℚ)}
    (hkeys : noMissing keys) (h : dropna l ≠ []) :
    noMissing (fillMedianGrouped keys l) := by
  rw [fillMedianGrouped]
  cases hany : l.any (fun o => o.isNone) with
  | false => simpa using noMissing_of_any_false hany
  | true =>
      simp only [if_true]
      intro o ho
      rw [List.mem_map] at ho
      obtain ⟨p, hp, rfl⟩ := ho
      have hk := hkeys p.1 (List.of_mem_zip hp).1
      obtain ⟨k, hk⟩ := Option.isSome_iff_exists.mp hk
      rw [hk]
      cases h2 : p.2 with
      | some v => rfl
      | none =>
          simp only []
          cases hg : median? ((keys.zip l).filterMap
              (fun q => if q.1 = some k then q.2 else Option.none)) with
          | some m => rfl
          | none =>
              obtain ⟨m, hm⟩ := median?_isSome (dropna l) h
              simp [hm]

theorem cityModeFill_entry_none {cities : List String} {l : List (Option String)}
    {o : Option String} (ho : o ∈ cityModeFill cities l) (hn : o = Option.none) :
    l.any (fun x => x.isNone) = true := by
  simp only [cityModeFill] at ho
  rw [List.mem_map] at ho
  obtain ⟨p, hp, hpe⟩ := ho
  subst hn
  cases h2 : p.2 with
  | some v => rw [h2] at hpe; cases hpe
  | none =>
      rw [List.any_eq_true]
      exact ⟨p.2, (List.of_mem_zip hp).2, by rw [h2]; rfl⟩

theorem cityModeFill_covers {cities : List String} {l : List (Option String)}
    (hlen : cities.length = l.length) {a : String} (ha : some a ∈ l) :
    some a ∈ cityModeFill cities l := by
  obtain ⟨i, hi, hgi⟩ := List.mem_iff_getElem.mp ha
  have hziplen : (cities.zip l).length = l.length := by
    rw [List.length_zip, hlen, min_self]
  have hlen2 : (cityModeFill cities l).length = l.length := by
    simp only [cityModeFill]
    rw [List.length_map, hziplen]
  rw [List.mem_iff_getElem]
  refine ⟨i, by rw [hlen2]; exact hi, ?_⟩
  simp only [cityModeFill]
  rw [List.getElem_map, List.getElem_zip, hgi]

theorem noMissing_fillCityModeThenGlobal {cities : List String}
    {l : List (Option String)} (hlen : cities.length = l.length)
    (h : l.any (fun o => o.isNone) = true → dropna l ≠ []) :
    noMissing (fillCityModeThenGlobal cities l) := by
  simp only [fillCityModeThenGlobal]
  cases hany : (cityModeFill cities l).any (fun o => o.isNone) with
  | false => simpa using noMissing_of_any_false hany
  | true =>
      simp only [if_true]
      have hlany : l.any (fun x => x.isNone) = true := by
        rw [List.any_eq_true] at hany
        obtain ⟨o, ho, hno⟩ := hany
        exact cityModeFill_entry_none ho (by cases o <;> simp at hno ⊢)
      have hne : dropna (cityModeFill cities l) ≠ [] := by
        rw [dropna_ne_nil]
        obtain ⟨a, ha⟩ := dropna_ne_nil.mp (h hlany)
        exact ⟨a, cityModeFill_covers hlen ha⟩
      obtain ⟨m, hm⟩ := mode?_isSome (dropna (cityModeFill cities l)) hne
      rw [hm]
      exact noMissing_fillValue _ m

end BasicPreprocessing

/-! ## Claim theorems -/

/-- C1: for every input dictionary on which `preprocess` returns, the
feature vector has exactly the length of the persisted expected-feature
list (41) and its column names, in order, equal that list; and in the
final reorder step any expected feature absent from the computed mapping
is set to `0` (a logged warning in the source, not an error). -/
theorem C1_feature_vector_column_order
    (pyHash : Value → ℤ) (svc : TreePreprocessService) (data : Input)
    (out : List (String × ℚ))
    (h : preprocess pyHash svc data = .ok out) :
    (out.length = 41 ∧ out.length = EXPECTED_FEATURES.length ∧
      out.map Prod.fst = EXPECTED_FEATURES) ∧
    (∀ proc f, f ∈ EXPECTED_FEATURES → List.lookup f proc = Option.none →
      List.lookup f (reorderToExpected proc) = some 0) := by
  obtain ⟨city, hc, rfl⟩ := preprocess_ok_elim pyHash svc data out h
  constructor
  · refine ⟨?_, reorder_length _, reorder_map_fst _⟩
    rw [reorder_length]; decide
  · intro proc f hf hnone
    rw [lookup_reorder proc f hf, hnone]
    rfl

/-- C1 witness: the column-order contract instantiated on the empty input
dictionary and a service without artifacts. -/
theorem C1_feature_vector_column_order_witness :
    ∃ out, preprocess hashZero svcNone [] = .ok out ∧
      out.length = 41 ∧ out.map Prod.fst = EXPECTED_FEATURES ∧
      List.lookup "Area" (reorderToExpected []) = some 0 := by
  refine ⟨_, rfl, ?_⟩
  have h := C1_feature_vector_column_order hashZero svcNone [] _ rfl
  exact ⟨h.1.1, h.1.2.2, h.2 [] "Area" (by decide) rfl⟩

/-- C2 (amended): label-encoder-backed encodings (the batch test transform
and `_encode_categorical` whenever a fitted encoder is loaded for the
column) map every value outside the frozen class list — unknown strings and
non-strings alike — to the out-of-vocabulary code `-1`; the fixed-table
encoders for direction, legal status and furniture state instead map
unknown strings to the constant default codes `1`, `0` and `1`.  All
encoders are pure functions of the frozen tables, so no call mutates a
fitted encoder and repeated calls agree. -/
theorem C2_oov_encoding_amended :
    (∀ (pyHash : Value → ℤ) (svc : TreePreprocessService) (col : String)
        (classes : List String) (v : Value),
        List.lookup col svc.label_encoders = some classes →
        inClasses classes v = false →
        encodeCategorical pyHash svc col v = -1) ∧
    (∀ (classes : List String) (v : String), v ∉ classes →
        SplitAndEncode.encodeTestValue classes v = -1) ∧
    (∀ s, List.lookup (lowerStrip s) DIRECTION_MAPPING = Option.none →
        encodeDirection (.str s) = 1) ∧
    (∀ s, List.lookup (lowerStrip s) LEGAL_STATUS_MAPPING = Option.none →
        encodeLegalStatus (.str s) = 0) ∧
    (∀ s, List.lookup (lowerStrip s) FURNITURE_MAPPING = Option.none →
        encodeFurniture (.str s) = 1) := by
  refine ⟨?_, ?_, ?_, ?_, ?_⟩
  · intro pyHash svc col classes v hcol hv
    cases v with
    | str s =>
        simp [inClasses] at hv
        simp [encodeCategorical, hcol, hv]
    | none => simp [encodeCategorical, hcol]
    | num q => simp [encodeCategorical, hcol]
  · intro classes v hv
    simp [SplitAndEncode.encodeTestValue, hv]
  · intro s hs; simp [encodeDirection, hs]
  · intro s hs; simp [encodeLegalStatus, hs]
  · intro s hs; simp [encodeFurniture, hs]

/-- C2 witness: a district string outside a two-class fitted vocabulary
encodes to `-1` both through the service encoder and through the batch
test transform. -/
theorem C2_oov_encoding_amended_witness :
    List.lookup "new_district" (⟨[("new_district", ["Quận 1", "Quận 2"])],
        Option.none⟩ : TreePreprocessService).label_encoders =
      some ["Quận 1", "Quận 2"] ∧
    inClasses ["Quận 1", "Quận 2"] (.str "Quận 99") = false ∧
    encodeCategorical hashZero ⟨[("new_district", ["Quận 1", "Quận 2"])], Option.none⟩
      "new_district" (.str "Quận 99") = -1 ∧
    SplitAndEncode.encodeTestValue ["Quận 1", "Quận 2"] "Quận 99" = -1 := by
  refine ⟨by decide, by decide, ?_, ?_⟩
  · exact C2_oov_encoding_amended.1 hashZero _ "new_district" ["Quận 1", "Quận 2"]
      (.str "Quận 99") (by decide) (by decide)
  · exact C2_oov_encoding_amended.2.1 ["Quận 1", "Quận 2"] "Quận 99" (by decide)

/-- C2 counterexample: `_encode_direction` maps a string absent from its
frozen vocabulary to the default in-vocabulary code `1` ("Tây"), not to the
out-of-vocabulary code `-1` the claim asserts for every categorical
column. -/
theorem C2_direction_default_counterexample :
    List.lookup (lowerStrip "xyzzy") DIRECTION_MAPPING = Option.none ∧
    encodeDirection (.str "xyzzy") = 1 ∧ ¬((1 : ℤ) = -1) := by decide

/-- C3: the outlier phase of `split_and_encode` returns the test partition
untouched (same rows, same row count), filters the training partition by
IQR bounds computed from the training target values alone, and its
training-side output does not depend on the test partition at all. -/
theorem C3_outlier_filter_train_only {α : Type} (XTrain : List α)
    (yTrain : List ℚ) (XTest : List α) (yTest : List ℚ) :
    (SplitAndEncode.outlierPhase XTrain yTrain XTest yTest).2.2.1 = XTest ∧
    (SplitAndEncode.outlierPhase XTrain yTrain XTest yTest).2.2.2 = yTest ∧
    (SplitAndEncode.outlierPhase XTrain yTrain XTest yTest).2.1 =
      yTrain.filter (fun y =>
        decide (quantileQ yTrain (1/4) -
            (3/2) * (quantileQ yTrain (3/4) - quantileQ yTrain (1/4)) ≤ y) &&
        decide (y ≤ quantileQ yTrain (3/4) +
            (3/2) * (quantileQ yTrain (3/4) - quantileQ yTrain (1/4)))) ∧
    (SplitAndEncode.outlierPhase XTrain yTrain XTest yTest).1 =
      (XTrain.zip yTrain).filterMap (fun p =>
        if quantileQ yTrain (1/4) -
              (3/2) * (quantileQ yTrain (3/4) - quantileQ yTrain (1/4)) ≤ p.2 ∧
            p.2 ≤ quantileQ yTrain (3/4) +
              (3/2) * (quantileQ yTrain (3/4) - quantileQ yTrain (1/4))
          then some p.1 else Option.none) ∧
    (∀ (XTest' : List α) (yTest' : List ℚ),
      (SplitAndEncode.outlierPhase XTrain yTrain XTest' yTest').1 =
        (SplitAndEncode.outlierPhase XTrain yTrain XTest yTest).1 ∧
      (SplitAndEncode.outlierPhase XTrain yTrain XTest' yTest').2.1 =
        (SplitAndEncode.outlierPhase XTrain yTrain XTest yTest).2.1) := by
  refine ⟨rfl, rfl, ?_, ?_, fun X y => ⟨rfl, rfl⟩⟩
  · exact applyMask_map_self yTrain _
  · rw [show (SplitAndEncode.outlierPhase XTrain yTrain XTest yTest).1 =
        SplitAndEncode.applyMask XTrain (yTrain.map (fun y =>
          decide (quantileQ yTrain (1/4) -
              (3/2) * (quantileQ yTrain (3/4) - quantileQ yTrain (1/4)) ≤ y) &&
          decide (y ≤ quantileQ yTrain (3/4) +
              (3/2) * (quantileQ yTrain (3/4) - quantileQ yTrain (1/4))))) from rfl,
      applyMask_map_zip]
    simp only [Bool.and_eq_true, decide_eq_true_eq]

/-- C5: the address decomposer splits on commas and strips each segment;
with ≥3 segments it yields city = last segment with trailing periods
stripped, district = second-to-last, street_ward = the leading segments
joined with ", "; with 2 segments street_ward = "Unknown"; with 1 segment
district and street_ward = "Unknown"; empty and non-string inputs yield
"Unknown" for all three fields without raising; and the spec's two
scenarios hold. -/
theorem C5_address_decomposition :
    (∀ addr : String, addr ≠ "" → 3 ≤ (DataPreprocessor.strippedParts addr).length →
        DataPreprocessor.parseLocation (some addr) =
          (rstripDot ((DataPreprocessor.strippedParts addr).getLastD ""),
           (DataPreprocessor.strippedParts addr).getD
             ((DataPreprocessor.strippedParts addr).length - 2) "",
           joinCommaSpace ((DataPreprocessor.strippedParts addr).take
             ((DataPreprocessor.strippedParts addr).length - 2)))) ∧
    (∀ addr : String, addr ≠ "" → (DataPreprocessor.strippedParts addr).length = 2 →
        DataPreprocessor.parseLocation (some addr) =
          (rstripDot ((DataPreprocessor.strippedParts addr).getLastD ""),
           (DataPreprocessor.strippedParts addr).getD 0 "", "Unknown")) ∧
    (∀ addr : String, addr ≠ "" → (DataPreprocessor.strippedParts addr).length = 1 →
        (DataPreprocessor.parseLocation (some addr)).2.1 = "Unknown" ∧
        (DataPreprocessor.parseLocation (some addr)).2.2 = "Unknown") ∧
    DataPreprocessor.parseLocation (some "") = ("Unknown", "Unknown", "Unknown") ∧
    DataPreprocessor.parseLocation Option.none = ("Unknown", "Unknown", "Unknown") ∧
    DataPreprocessor.parseLocation
        (some "12 Lê Lợi, Phường Bến Nghé, Quận 1, Hồ Chí Minh.") =
      ("Hồ Chí Minh", "Quận 1", "12 Lê Lợi, Phường Bến Nghé") := by
  refine ⟨?_, ?_, ?_, rfl, rfl, by decide⟩
  · intro addr h1 h3
    simp [DataPreprocessor.parseLocation, h1, h3]
  · intro addr h1 h2
    have h3 : ¬(3 ≤ (DataPreprocessor.strippedParts addr).length) := by omega
    simp [DataPreprocessor.parseLocation, h1, h2, h3]
  · intro addr h1 h2
    have h3 : ¬(3 ≤ (DataPreprocessor.strippedParts addr).length) := by omega
    have h2' : (DataPreprocessor.strippedParts addr).length ≠ 2 := by omega
    simp [DataPreprocessor.parseLocation, h1, h2, h3, h2']

/-- C5 witness: the 2-segment case instantiated on `"a, b"`. -/
theorem C5_address_decomposition_witness :
    (¬("a, b" : String) = "" ∧ (DataPreprocessor.strippedParts "a, b").length = 2) ∧
    DataPreprocessor.parseLocation (some "a, b") =
      (rstripDot ((DataPreprocessor.strippedParts "a, b").getLastD ""),
       (DataPreprocessor.strippedParts "a, b").getD 0 "", "Unknown") :=
  ⟨⟨by decide, by decide⟩,
    C5_address_decomposition.2.1 "a, b" (by decide) (by decide)⟩

/-- C6: the online preprocessor does not compute `luxury_score` by the
batch §4.3 formula.  At Bathrooms=3, Bedrooms=2, Floors=1, Area=120 the
batch formula (count of Bathrooms≥4, Bedrooms≥5, Floors≥4, Area>140) gives
`0`, while `preprocess` — whose module docstring says it matches the batch
pipeline — yields `3` via its own `(Bathrooms≥3) + (Area>100) +
(furniture∈{0,1})` formula. -/
theorem C6_luxury_score_divergence :
    (createInteractionRow ⟨120, 3, 2, 1, 0, 0, "Hồ Chí Minh", 5⟩).luxury_score = 0 ∧
    (∃ out, preprocess hashZero svcNone
        [("Area", Value.num 120), ("Bathrooms", Value.num 3),
         ("Bedrooms", Value.num 2), ("Floors", Value.num 1)] = .ok out ∧
      List.lookup "luxury_score" out = some 3) ∧
    ¬((3 : ℚ) = 0) := by
  refine ⟨?_, ⟨_, rfl, ?_⟩, by norm_num⟩
  · exact (rfl : _ = ((0:ℚ) + 0 + 0 + 0)).trans (by norm_num)
  · exact (rfl : _ = some ((1:ℚ) + 1 + 1)).trans (by norm_num)

/-- C7 (amended): the online preprocessor computes `access_quality` as the
road-width ordinal (0 when the Access Road value is 0, 1 when it is below
5, 2 otherwise) — stated as a relation between the two output columns of
any successful call — while the batch Derived Feature Generator computes
`access_quality` as `(Access Road > 0) + (Frontage > 0)`, not by the
road-width ordinal. -/
theorem C7_access_quality_amended :
    (∀ (pyHash : Value → ℤ) (svc : TreePreprocessService) (data : Input)
        (out : List (String × ℚ)) (road q : ℚ),
        preprocess pyHash svc data = .ok out →
        List.lookup "Access Road" out = some road →
        List.lookup "access_quality" out = some q →
        q = if road = 0 then 0 else if road < 5 then 1 else 2) ∧
    (∀ r : EnhRow, (createInteractionRow r).access_quality =
        (if r.accessRoad > 0 then 1 else 0) + (if r.frontage > 0 then 1 else 0)) := by
  constructor
  · intro pyHash svc data out road q h hroad hq
    obtain ⟨city, hc, rfl⟩ := preprocess_ok_elim pyHash svc data out h
    rw [lookup_reorder _ _ (by decide), lookup_processed_accessRoad pyHash svc data city,
      Option.getD_some, Option.some.injEq] at hroad
    rw [lookup_reorder _ _ (by decide), lookup_processed_accessQuality pyHash svc data city,
      Option.getD_some, Option.some.injEq] at hq
    subst hroad
    subst hq
    rfl
  · intro r; rfl

/-- C7 witness: a request with a 10 m access road yields the ordinal
value 2 at serve time. -/
theorem C7_access_quality_amended_witness :
    ∃ out, preprocess hashZero svcNone [("AccessRoad", Value.num 10)] = .ok out ∧
      List.lookup "Access Road" out = some 10 ∧
      List.lookup "access_quality" out = some 2 ∧
      (2 : ℚ) = if (10 : ℚ) = 0 then 0 else if (10 : ℚ) < 5 then 1 else 2 := by
  have h1 : List.lookup "Access Road" (reorderToExpected (processedMap hashZero svcNone
      [("AccessRoad", Value.num 10)] "Hồ Chí Minh")) = some 10 := by decide
  have h2 : List.lookup "access_quality" (reorderToExpected (processedMap hashZero svcNone
      [("AccessRoad", Value.num 10)] "Hồ Chí Minh")) = some 2 := by decide
  exact ⟨_, rfl, h1, h2,
    C7_access_quality_amended.1 hashZero svcNone [("AccessRoad", Value.num 10)]
      _ 10 2 rfl h1 h2⟩

/-- C7 counterexample: in the batch generator a wide road (10 m) with no
frontage gives `access_quality = 1`, not the `2` the claimed road-width
ordinal assigns to widths ≥ 5. -/
theorem C7_batch_access_quality_counterexample :
    (createInteractionRow ⟨50, 1, 1, 1, 0, 10, "Hồ Chí Minh", 2⟩).access_quality = 1 ∧
    (if (10 : ℚ) = 0 then (0:ℚ) else if (10 : ℚ) < 5 then 1 else 2) = 2 ∧
    ¬((1 : ℚ) = 2) := by
  refine ⟨?_, by norm_num, by norm_num⟩
  exact (rfl : _ = ((1:ℚ) + 0)).trans (by norm_num)

/-- C8: when the request's district is not a key of the frozen
location-stats table (or no table is loaded), every successful `preprocess`
call sets the five location-stat features to the fixed global defaults
(70, 65, 30, 100, 2); the lookup never re-fits — the service's frozen state
is never written. -/
theorem C8_unknown_district_defaults (pyHash : Value → ℤ)
    (svc : TreePreprocessService) (data : Input) (out : List (String × ℚ))
    (h : preprocess pyHash svc data = .ok out)
    (hmiss : statsContains svc (districtArg data) = false) :
    List.lookup "new_district_area_mean" out = some 70 ∧
    List.lookup "new_district_area_median" out = some 65 ∧
    List.lookup "new_district_area_std" out = some 30 ∧
    List.lookup "new_district_sample_count" out = some 100 ∧
    List.lookup "new_district_tier" out = some 2 := by
  obtain ⟨city, hc, rfl⟩ := preprocess_ok_elim pyHash svc data out h
  have hnone : statsLookup svc (districtArg data) = Option.none := by
    cases hsl : statsLookup svc (districtArg data) with
    | none => rfl
    | some st => rw [statsContains, hsl] at hmiss; cases hmiss
  have hl := lookup_processed_stats_defaults pyHash svc data city hnone
  refine ⟨?_, ?_, ?_, ?_, ?_⟩
  · rw [lookup_reorder _ _ (by decide), hl.1]; rfl
  · rw [lookup_reorder _ _ (by decide), hl.2.1]; rfl
  · rw [lookup_reorder _ _ (by decide), hl.2.2.1]; rfl
  · rw [lookup_reorder _ _ (by decide), hl.2.2.2.1]; rfl
  · rw [lookup_reorder _ _ (by decide), hl.2.2.2.2]; rfl

/-- C8 witness: district "Quận 99", absent from a loaded stats table that
only knows "Quận 1", falls back to the documented defaults. -/
theorem C8_unknown_district_defaults_witness :
    statsContains svcQuan1 (districtArg [("District", Value.str "Quận 99")]) = false ∧
    ∃ out, preprocess hashZero svcQuan1 [("District", Value.str "Quận 99")] = .ok out ∧
      List.lookup "new_district_area_mean" out = some 70 ∧
      List.lookup "new_district_tier" out = some 2 := by
  refine ⟨by decide, _, rfl, ?_, ?_⟩
  · exact (C8_unknown_district_defaults hashZero svcQuan1
      [("District", Value.str "Quận 99")] _ rfl (by decide)).1
  · exact (C8_unknown_district_defaults hashZero svcQuan1
      [("District", Value.str "Quận 99")] _ rfl (by decide)).2.2.2.2

/-- C9 (amended): raw input attributes omitted from the request dictionary
contribute fixed per-field defaults — Area 70, Floors 1, Bedrooms 2,
Bathrooms 2, Frontage 0, Access Road 0 — not a uniform 0.0 initialisation;
only features never computed default to 0 at the reorder step (the C1
theorem's second part). -/
theorem C9_omitted_input_defaults_amended (pyHash : Value → ℤ)
    (svc : TreePreprocessService) (data : Input) (out : List (String × ℚ))
    (h : preprocess pyHash svc data = .ok out) :
    (List.lookup "Area" data = Option.none → List.lookup "Area" out = some 70) ∧
    (List.lookup "Floors" data = Option.none → List.lookup "Floors" out = some 1) ∧
    (List.lookup "Bedrooms" data = Option.none → List.lookup "Bedrooms" out = some 2) ∧
    (List.lookup "Bathrooms" data = Option.none → List.lookup "Bathrooms" out = some 2) ∧
    (List.lookup "Frontage" data = Option.none → List.lookup "Frontage" out = some 0) ∧
    (List.lookup "AccessRoad" data = Option.none →
      List.lookup "Access Road" data = Option.none →
      List.lookup "Access Road" out = some 0) := by
  obtain ⟨city, hc, rfl⟩ := preprocess_ok_elim pyHash svc data out h
  refine ⟨?_, ?_, ?_, ?_, ?_, ?_⟩
  · intro hnone
    rw [lookup_reorder _ _ (by decide), lookup_processed_area pyHash svc data city,
      input_get_of_absent data "Area" _ hnone]
    rfl
  · intro hnone
    rw [lookup_reorder _ _ (by decide), lookup_processed_floors pyHash svc data city,
      input_get_of_absent data "Floors" _ hnone]
    rfl
  · intro hnone
    rw [lookup_reorder _ _ (by decide), lookup_processed_bedrooms pyHash svc data city,
      input_get_of_absent data "Bedrooms" _ hnone]
    rfl
  · intro hnone
    rw [lookup_reorder _ _ (by decide), lookup_processed_bathrooms pyHash svc data city,
      input_get_of_absent data "Bathrooms" _ hnone]
    rfl
  · intro hnone
    rw [lookup_reorder _ _ (by decide), lookup_processed_frontage pyHash svc data city,
      input_get_of_absent data "Frontage" _ hnone]
    rfl
  · intro hnone1 hnone2
    rw [lookup_reorder _ _ (by decide), lookup_processed_accessRoad pyHash svc data city,
      input_get_of_absent data "AccessRoad" _ hnone1,
      input_get_of_absent data "Access Road" _ hnone2]
    rfl

/-- C9 witness: the amended per-field defaults instantiated on the empty
request. -/
theorem C9_omitted_input_defaults_amended_witness :
    ∃ out, preprocess hashZero svcNone [] = .ok out ∧
      List.lookup "Area" out = some 70 ∧ List.lookup "Bedrooms" out = some 2 := by
  refine ⟨_, rfl, ?_, ?_⟩
  · exact (C9_omitted_input_defaults_amended hashZero svcNone [] _ rfl).1 rfl
  · exact (C9_omitted_input_defaults_amended hashZero svcNone [] _ rfl).2.2.1 rfl

/-- C9 counterexample: with Area omitted from the request the Area feature
is 70, not the 0.0 the claim's uniform zero-initialisation asserts. -/
theorem C9_omitted_area_counterexample :
    ∃ out, preprocess hashZero svcNone [] = .ok out ∧
      List.lookup "Area" out = some 70 ∧ ¬((70 : ℚ) = 0) := by
  refine ⟨_, rfl, ?_, by norm_num⟩
  decide

/-- C10 (amended): `preprocess` returns a feature vector without raising
for every input dictionary whose City value (when present and truthy) is a
string — malformed numeric values (None, empty string, unparseable string)
are coerced to `_to_float`'s fixed default 0.0 — but a truthy non-string
City value raises `AttributeError` in `_normalize_city`. -/
theorem C10_preprocess_totality_amended (pyHash : Value → ℤ)
    (svc : TreePreprocessService) (data : Input)
    (h : cityValueAcceptable (cityArg data) = true) :
    (∃ out, preprocess pyHash svc data = .ok out) ∧
    toFloat Value.none = 0 ∧ toFloat (.str "") = 0 ∧
    (∀ s, pyFloat? s = Option.none → toFloat (.str s) = 0) := by
  refine ⟨?_, rfl, rfl, ?_⟩
  · unfold preprocess
    cases hv : cityArg data with
    | none => exact ⟨_, rfl⟩
    | str s => by_cases hs : s = "" <;> simp [normalizeCity, hs]
    | num q =>
        rw [hv] at h
        simp [cityValueAcceptable] at h
        simp [normalizeCity, h]
  · intro s hs
    by_cases h0 : s = "" <;> simp [toFloat, h0, hs]

/-- C10 witness: a request with a malformed numeric string, a None value,
and a string city spelled "tphcm" preprocesses successfully, the malformed
Area coercing to the 0.0 default. -/
theorem C10_preprocess_totality_amended_witness :
    cityValueAcceptable (cityArg [("Area", Value.str "abc"), ("Bedrooms", Value.none),
      ("City", Value.str "tphcm")]) = true ∧
    (∃ out, preprocess hashZero svcNone [("Area", Value.str "abc"),
      ("Bedrooms", Value.none), ("City", Value.str "tphcm")] = .ok out) ∧
    toFloat (.str "abc") = 0 := by
  have h := C10_preprocess_totality_amended hashZero svcNone
    [("Area", Value.str "abc"), ("Bedrooms", Value.none), ("City", Value.str "tphcm")]
    (by decide)
  exact ⟨by decide, h.1, h.2.2.2 "abc" (by decide)⟩

/-- C10 counterexample: a dictionary carrying a truthy non-string City
value (the number 1) makes `preprocess` raise `AttributeError` instead of
returning a feature vector, so the preprocessor is not total at its public
boundary. -/
theorem C10_nonstring_city_counterexample :
    preprocess hashZero svcNone [("City", Value.num 1)] = .error .attributeError := rfl

/-- C4 (amended): after the missing-value-resolution phases of
`basic_preprocessing`, every processed column has zero missing values,
provided the columns are row-aligned and each of Furniture state, Bedrooms,
Bathrooms, Floors, Area and Price that has a missing entry also has at
least one non-missing entry (so a median/mode exists to fill with; an
entirely missing column stays missing, see the counterexample). -/
theorem C4_no_missing_after_fill_amended (f : BasicPreprocessing.RawFrame)
    (hlen : f.address.length = f.furniture.length)
    (hfurn : f.furniture.any (fun o => o.isNone) = true → dropna f.furniture ≠ [])
    (hbed : f.bedrooms.any (fun o => o.isNone) = true → dropna f.bedrooms ≠ [])
    (hbath : f.bathrooms.any (fun o => o.isNone) = true → dropna f.bathrooms ≠ [])
    (hfloors : f.floors.any (fun o => o.isNone) = true → dropna f.floors ≠ [])
    (harea : f.area.any (fun o => o.isNone) = true → dropna f.area ≠ [])
    (hprice : f.price.any (fun o => o.isNone) = true → dropna f.price ≠ []) :
    BasicPreprocessing.noMissing (BasicPreprocessing.basicPreprocessingFill f).area ∧
    BasicPreprocessing.noMissing (BasicPreprocessing.basicPreprocessingFill f).frontage ∧
    BasicPreprocessing.noMissing (BasicPreprocessing.basicPreprocessingFill f).accessRoad ∧
    BasicPreprocessing.noMissing (BasicPreprocessing.basicPreprocessingFill f).floors ∧
    BasicPreprocessing.noMissing (BasicPreprocessing.basicPreprocessingFill f).bedrooms ∧
    BasicPreprocessing.noMissing (BasicPreprocessing.basicPreprocessingFill f).bathrooms ∧
    BasicPreprocessing.noMissing (BasicPreprocessing.basicPreprocessingFill f).price ∧
    BasicPreprocessing.noMissing (BasicPreprocessing.basicPreprocessingFill f).houseDir ∧
    BasicPreprocessing.noMissing (BasicPreprocessing.basicPreprocessingFill f).balconyDir ∧
    BasicPreprocessing.noMissing (BasicPreprocessing.basicPreprocessingFill f).legal ∧
    BasicPreprocessing.noMissing (BasicPreprocessing.basicPreprocessingFill f).furniture := by
  have hbed1 : BasicPreprocessing.noMissing
      (if f.bedrooms.any (fun o => o.isNone) then BasicPreprocessing.fillMedian f.bedrooms
       else f.bedrooms) := by
    cases hany : f.bedrooms.any (fun o => o.isNone) with
    | false => simpa using BasicPreprocessing.noMissing_of_any_false hany
    | true => simpa using BasicPreprocessing.noMissing_fillMedian (hbed hany)
  have hfloors1 : BasicPreprocessing.noMissing
      (if f.floors.any (fun o => o.isNone) then BasicPreprocessing.fillMode f.floors
       else f.floors) := by
    cases hany : f.floors.any (fun o => o.isNone) with
    | false => simpa using BasicPreprocessing.noMissing_of_any_false hany
    | true => simpa using BasicPreprocessing.noMissing_fillMode (hfloors hany)
  have hbath1 : BasicPreprocessing.noMissing
      (if f.bathrooms.any (fun o => o.isNone) then
        BasicPreprocessing.fillMedianGrouped
          (if f.bedrooms.any (fun o => o.isNone) then BasicPreprocessing.fillMedian f.bedrooms
           else f.bedrooms) f.bathrooms
       else f.bathrooms) := by
    cases hany : f.bathrooms.any (fun o => o.isNone) with
    | false => simpa using BasicPreprocessing.noMissing_of_any_false hany
    | true => simpa using BasicPreprocessing.noMissing_fillMedianGrouped hbed1 (hbath hany)
  have hlen2 : ((f.address.map DataPreprocessor.parseLocation).map
      (fun p => p.1)).length = f.furniture.length := by
    simp [hlen]
  refine ⟨?_, ?_, ?_, ?_, ?_, ?_, ?_, ?_, ?_, ?_, ?_⟩
  · exact BasicPreprocessing.noMissing_fillMedianIfMissing harea
  · exact BasicPreprocessing.noMissing_fillMedianIfMissing_of_noMissing
      (BasicPreprocessing.noMissing_fillValue _ _)
  · exact BasicPreprocessing.noMissing_fillMedianIfMissing_of_noMissing
      (BasicPreprocessing.noMissing_fillValue _ _)
  · exact BasicPreprocessing.noMissing_fillMedianIfMissing_of_noMissing hfloors1
  · exact BasicPreprocessing.noMissing_fillMedianIfMissing_of_noMissing hbed1
  · exact BasicPreprocessing.noMissing_fillMedianIfMissing_of_noMissing hbath1
  · exact BasicPreprocessing.noMissing_fillMedianIfMissing hprice
  · exact BasicPreprocessing.noMissing_fillValue _ _
  · exact BasicPreprocessing.noMissing_fillValue _ _
  · exact BasicPreprocessing.noMissing_fillValue _ _
  · exact BasicPreprocessing.noMissing_fillCityModeThenGlobal hlen2 hfurn

/-- C4 witness: a fully populated one-row frame satisfies the hypotheses,
and its furniture and bathroom columns come out with no missing values. -/
theorem C4_no_missing_after_fill_amended_witness :
    (BasicPreprocessing.frameComplete.address.length =
      BasicPreprocessing.frameComplete.furniture.length) ∧
    BasicPreprocessing.noMissing
      (BasicPreprocessing.basicPreprocessingFill BasicPreprocessing.frameComplete).furniture ∧
    BasicPreprocessing.noMissing
      (BasicPreprocessing.basicPreprocessingFill BasicPreprocessing.frameComplete).bathrooms := by
  have h := C4_no_missing_after_fill_amended BasicPreprocessing.frameComplete
    (by decide) (by decide) (by decide) (by decide) (by decide) (by decide) (by decide)
  exact ⟨by decide, h.2.2.2.2.2.2.2.2.2.2, h.2.2.2.2.2.1⟩

/-- C4 counterexample: a frame whose `Furniture state` column is entirely
missing leaves the missing cell in place after the missing-value-resolution
stage (no city or global mode exists), so the claim's unconditional
zero-missing guarantee fails for this input frame. -/
theorem C4_all_missing_column_counterexample :
    (BasicPreprocessing.basicPreprocessingFill
        BasicPreprocessing.frameMissingFurniture).furniture = [Option.none] ∧
    ¬ BasicPreprocessing.noMissing
      (BasicPreprocessing.basicPreprocessingFill
        BasicPreprocessing.frameMissingFurniture).furniture := by
  constructor
  · rfl
  · decide

end Housing
